import Mathlib

/-!
Verification of the document/edge/index access layer of the go-driver
repository (files `edge_collection_documents_impl.go`, `index.go` and the
unnamed index implementation file) against its natural-language
specification.

The Go code is shallowly embedded: pure functions become Lean functions,
the transport collaborator (connection / request / response) is an explicit
oracle value, `reflect.Value` inputs become the `GoValue` inductive, and Go
panics become explicit `panicked` results.  Parts of the repository that the
claims depend on but that are not present in the sources (the key validator,
the context-settings extractor and the transport's `CheckStatus`) are
modelled from the specification's words and marked as such.
-/

namespace Driver

/-- Error kinds of the driver (spec section 7).  `WithStack` only annotates an
error with stack context and leaves its kind unmodified, so it is modelled as
the identity and omitted. -/
inductive GoError where
  | invalidArgument (msg : String)
  | invalidKey (msg : String)
  | notFound
  | responseError (status : Nat)
  | decodeError (field : String)
  | transportError (msg : String)
deriving DecidableEq

instance {ε α : Type} [DecidableEq ε] [DecidableEq α] : DecidableEq (Except ε α) := fun x y =>
  match x, y with
  | .ok a, .ok b =>
    if h : a = b then isTrue (congrArg Except.ok h)
    else isFalse (fun c => h (Except.ok.inj c))
  | .ok _, .error _ => isFalse (fun c => Except.noConfusion c)
  | .error _, .ok _ => isFalse (fun c => Except.noConfusion c)
  | .error a, .error b =>
    if h : a = b then isTrue (congrArg Except.error h)
    else isFalse (fun c => h (Except.error.inj c))

/-- Splitting a character list at every occurrence of a separator character;
the result always has one more piece than there are separators. -/
def splitChar (sep : Char) : List Char → List (List Char)
  | [] => [[]]
  | c :: rest =>
    let r := splitChar sep rest
    if c = sep then [] :: r
    else
      match r with
      | [] => [[c]]
      | h :: t => (c :: h) :: t

/-- Go's `strings.Split(s, sep)` for the single-character separators the
source uses (`"/"` and `","`); written by structural recursion so that it
evaluates inside the kernel. -/
def goSplit (s : String) (sep : Char) : List String :=
  (splitChar sep s.toList).map (fun l => String.mk l)

/-! ## Index data model (`index.go` and the unnamed index implementation) -/

/-- `IndexType` represents an index type as string (from `index.go`). -/
abbrev IndexType := String

def PrimaryIndex : IndexType := "primary"

def FullTextIndex : IndexType := "fulltext"

def HashIndex : IndexType := "hash"

def SkipListIndex : IndexType := "skiplist"

def PersistentIndex : IndexType := "persistent"

def GeoIndex : IndexType := "geo"

/-- `indexStringToType` converts a string representation of an index to
`IndexType` (unnamed index file, lines 32-50).  The Go `switch` is rendered
as a chain of equality tests; the multi-pattern `case` for geo becomes three
consecutive tests. -/
def indexStringToType (s : String) : Except GoError IndexType :=
  if s = FullTextIndex then .ok FullTextIndex
  else if s = HashIndex then .ok HashIndex
  else if s = SkipListIndex then .ok SkipListIndex
  else if s = PrimaryIndex then .ok PrimaryIndex
  else if s = PersistentIndex then .ok PersistentIndex
  else if s = GeoIndex then .ok GeoIndex
  else if s = "geo1" then .ok GeoIndex
  else if s = "geo2" then .ok GeoIndex
  else .error (.invalidArgument "unknown index type")

/-- Opaque stand-in for the `database` referenced by a collection; only its
identity and nil-ness matter to the embedded code. -/
structure Database where
  name : String
deriving DecidableEq

/-- Opaque stand-in for the `Connection` interface value. -/
structure Connection where
  tag : Nat
deriving DecidableEq

/-- The fields of `collection` that `newIndex` reads.  In Go, `db` is a
`*database` and `conn` a `Connection` interface value; both are nilable, so
they are embedded as `Option`. -/
structure collection where
  db : Option Database
  conn : Option Connection
deriving DecidableEq

/-- `indexData` (unnamed index file, lines 77-86).  Pointer-typed optional
attributes become `Option Bool`. -/
structure indexData where
  id : String
  typestr : String
  fields : List String
  unique : Option Bool
  deduplicate : Option Bool
  sparse : Option Bool
  geoJSON : Option Bool
  minLength : Int
deriving DecidableEq

/-- The `index` struct (unnamed index file, lines 88-94).  The `col`, `db`
and `conn` pointers are nilable, hence `Option`. -/
structure index where
  data : indexData
  indexType : IndexType
  db : Option Database
  col : Option collection
  conn : Option Connection
deriving DecidableEq

/-- `newIndex` (unnamed index file, lines 53-75): validates the descriptor
and builds the `index` value, copying `db` and `conn` out of the collection. -/
def newIndex (data : indexData) (col : Option collection) : Except GoError index :=
  if data.id = "" then .error (.invalidArgument "id is empty")
  else if (goSplit data.id '/').length ≠ 2 then
    .error (.invalidArgument "id must be collection/name")
  else
    match col with
    | none => .error (.invalidArgument "col is nil")
    | some c =>
      match indexStringToType data.typestr with
      | .error e => .error e
      | .ok t => .ok ⟨data, t, c.db, some c, c.conn⟩

/-- `index.Name` (unnamed index file, lines 101-105) evaluates `parts[1]` of
`strings.Split(id, "/")`; the out-of-range panic of the Go indexing is
modelled by `Option`. -/
def index.Name (i : index) : Option String :=
  (goSplit i.data.id '/')[1]?

/-- `index.Type` (unnamed index file, lines 107-110). -/
def index.Type (i : index) : IndexType :=
  i.indexType

/-- `index.Fields` (unnamed index file, lines 129-132). -/
def index.Fields (i : index) : List String :=
  i.data.fields

/-- `boolOrFalse` (unnamed index file, lines 134-140). -/
def boolOrFalse (ptr : Option Bool) : Bool :=
  match ptr with
  | some b => b
  | none => false

/-- `index.IsUnique` (unnamed index file, lines 142-145). -/
def index.IsUnique (i : index) : Bool :=
  boolOrFalse i.data.unique

/-- `index.IsSparse` as written in the source (unnamed index file, lines
147-150): note that it reads `i.data.unique`, not `i.data.sparse`. -/
def index.IsSparse (i : index) : Bool :=
  boolOrFalse i.data.unique

/-- `index.IsDeduplicate` (unnamed index file, lines 152-155). -/
def index.IsDeduplicate (i : index) : Bool :=
  boolOrFalse i.data.deduplicate

/-- `index.IsGeoJSON` (unnamed index file, lines 157-160). -/
def index.IsGeoJSON (i : index) : Bool :=
  boolOrFalse i.data.geoJSON

/-- `index.MinLength` (unnamed index file, lines 162-165). -/
def index.MinLength (i : index) : Int :=
  i.data.minLength

/-! ### Concrete index inputs used by the index claims -/

/-- A well-formed descriptor whose `unique` and `sparse` attributes disagree
(`unique = true`, `sparse = false`). -/
def dCB : indexData :=
  ⟨"c/i", "hash", ["f"], some true, none, some false, none, 0⟩

/-- A collection whose `db` and `conn` references are populated. -/
def colGood : collection :=
  ⟨some ⟨"db1"⟩, some ⟨1⟩⟩

/-- A non-nil collection whose own `db` and `conn` references are nil. -/
def colBad : collection :=
  ⟨none, none⟩

/-- The index value `newIndex dCB (some colGood)` produces. -/
def idxCB : index :=
  ⟨dCB, HashIndex, some ⟨"db1"⟩, some colGood, some ⟨1⟩⟩

/-- The index value `newIndex dCB (some colBad)` produces. -/
def idxBad : index :=
  ⟨dCB, HashIndex, none, some colBad, none⟩

/-! ## A model of the `reflect.Value` inputs of the document layer

Batch items reach `getKeyFromDocument` as `reflect.Value`s taken from the
caller's slice, so the embedding needs the Go value shapes and the exact
(partial) semantics of the reflect methods the source uses: `IsNil`, `Elem`,
`Kind`, `MapIndex`, field iteration and `String`. -/

/-- Go values as seen through `reflect.Value`.  `ptr` and `interfaceV` are
nilable; `invalid` is the zero `reflect.Value` (e.g. the result of
`MapIndex` for an absent key).  A struct is its field list, each field
carrying its raw `json` tag and its value; a map is its entry list keyed by
strings. -/
inductive GoValue where
  | invalid : GoValue
  | str : String → GoValue
  | intV : Int → GoValue
  | ptr : Option GoValue → GoValue
  | interfaceV : Option GoValue → GoValue
  | structV : List (String × GoValue) → GoValue
  | mapV : List (String × GoValue) → GoValue
  | slice : List GoValue → GoValue

/-- The `Kind().String()` name of a value. -/
def GoValue.kind : GoValue → String
  | .invalid => "invalid"
  | .str _ => "string"
  | .intV _ => "int"
  | .ptr _ => "ptr"
  | .interfaceV _ => "interface"
  | .structV _ => "struct"
  | .mapV _ => "map"
  | .slice _ => "slice"

/-- `reflect.Value.String()`: returns the underlying string for a
string-kinded value and a `<kind Value>` placeholder for every other kind
(it never panics). -/
def GoValue.stringMethod : GoValue → String
  | .str s => s
  | .invalid => "<invalid Value>"
  | v => "<" ++ v.kind ++ " Value>"

/-- Outcome of a reflect method that can panic. -/
inductive NilCheck where
  | val (b : Bool)
  | panicked (msg : String)
deriving DecidableEq

/-- `reflect.Value.IsNil()`: defined for chan/func/interface/map/pointer/
slice kinds and panicking for every other kind, including the zero
`reflect.Value`. -/
def GoValue.isNil : GoValue → NilCheck
  | .ptr none => .val true
  | .ptr (some _) => .val false
  | .interfaceV none => .val true
  | .interfaceV (some _) => .val false
  | .mapV _ => .val false
  | .slice _ => .val false
  | .invalid => .panicked "reflect: call of reflect.Value.IsNil on zero Value"
  | v => .panicked ("reflect: call of reflect.Value.IsNil on " ++ v.kind ++ " Value")

/-- Whether `v.Interface()` compares equal to the untyped `nil` that the
single-document operators reject: only a nil interface value does. -/
def GoValue.interfaceIsNil : GoValue → Bool
  | .interfaceV none => true
  | _ => false

/-- Result of `getKeyFromDocument`: the extracted key, a returned error, or
a Go runtime panic. -/
inductive KeyResult where
  | ok (key : String)
  | err (e : GoError)
  | panicked (msg : String)
deriving DecidableEq

/-- `getKeyFromDocument` (`edge_collection_documents_impl.go`, lines
464-494).  The call order of the source is preserved: `IsNil` first (which
panics on non-nilable kinds), `Elem` for pointers, then the kind switch.  In
the map case, `MapIndex` yields the zero `reflect.Value` for an absent key
and the subsequent `IsNil` call panics on it. -/
def getKeyFromDocument (doc : GoValue) : KeyResult :=
  match doc.isNil with
  | .panicked msg => .panicked msg
  | .val true => .err (.invalidArgument "Document is nil")
  | .val false =>
    let d := match doc with
      | .ptr (some v) => v
      | _ => doc
    match d with
    | .structV fields =>
      match fields.find? (fun f => ((goSplit f.1 ',').headD "") = "_key") with
      | some f => .ok f.2.stringMethod
      | none => .err (.invalidArgument "Document contains no _key field")
    | .mapV entries =>
      match entries.find? (fun e => e.1 = "_key") with
      | none => .panicked "reflect: call of reflect.Value.IsNil on zero Value"
      | some e =>
        match e.2.isNil with
        | .panicked msg => .panicked msg
        | .val true => .err (.invalidArgument "Document contains no _key entry")
        | .val false => .ok e.2.stringMethod
    | other => .err (.invalidArgument ("Document must be struct or map. Got " ++ other.kind))

/-! ## Single-document operations (`edge_collection_documents_impl.go`)

The transport collaborator is out of scope for the source and is given to
each operation as an `Exchange` value: either one of the three request-stage
failures (`NewRequest`, `SetBody`, `Do`) or a `Response`.  The response's
parse behaviour is part of the oracle: `parseEdge` is the decoded primary
envelope (or `none` on decode failure) and the `Ok` booleans say whether
decoding the secondary envelopes / the user result sink succeeds. -/

/-- `DocumentMeta`: key, id, revision of a document.  The zero value (all
empty strings) is what `DocumentMeta{}` denotes in Go. -/
structure DocumentMeta where
  key : String
  id : String
  rev : String
deriving DecidableEq

/-- The Go zero value `DocumentMeta{}`. -/
def DocumentMeta.zero : DocumentMeta :=
  ⟨"", "", ""⟩

/-- Modelled from the spec: `ContextSettings` (spec sections 3 and 4.2) —
per-call flags derived from the ambient call configuration.  The
`ReturnOld`/`ReturnNew` sinks are modelled by whether they are set; the
sink contents are opaque to this layer.  The corresponding Go type is not
part of the sources. -/
structure contextSettings where
  Silent : Bool := false
  ReturnOld : Bool := false
  ReturnNew : Bool := false
  WaitForSync : Bool := false
  Overwrite : String := ""
deriving DecidableEq

/-- The Go zero value `contextSettings{}`, returned by the operators on
failures that occur before `applyContextSettings` runs. -/
def csZero : contextSettings :=
  {}

/-- Modelled from the spec: `okStatus(primary, secondary)` (spec section 3)
returns `primary` unless `WaitForSync` is false, in which case `secondary`
is the accepted status. -/
def contextSettings.okStatus (cs : contextSettings) (primary secondary : Nat) : Nat :=
  if cs.WaitForSync then primary else secondary

/-- Modelled from the spec: the allowed identifier characters of the Key
Validator (spec section 4.1): alphanumerics and a small set of punctuation,
no slashes. -/
def keyCharAllowed (c : Char) : Bool :=
  c.isAlphanum || c = '_' || c = '-' || c = ':' || c = '.' || c = '@'

/-- Modelled from the spec: the Key Validator (spec section 4.1, not in the
sources).  Rejects empty keys and keys containing characters outside the
allowed identifier charset. -/
def validateKey (key : String) : Option GoError :=
  if key = "" then some (.invalidKey "key is empty")
  else if key.toList.all keyCharAllowed then none
  else some (.invalidKey "key contains an invalid character")

/-- The oracle for one request/response exchange with the server. -/
structure Response where
  status : Nat
  parseEdge : Option DocumentMeta
  parseOldOk : Bool
  parseNewOk : Bool
  parseResultOk : Bool
deriving DecidableEq

/-- Modelled from the spec: the transport's `Response.CheckStatus` (spec
section 6) classifies a status outside the accepted set into `NotFoundError`
for 404 and a generic response error otherwise. -/
def Response.CheckStatus (resp : Response) (accepted : List Nat) : Option GoError :=
  if resp.status ∈ accepted then none
  else if resp.status = 404 then some .notFound
  else some (.responseError resp.status)

/-- Transport outcome for one single-document operation.  The `setBodyErr`
stage exists only for the verbs that send a body; for `GET`/`DELETE` it is
vacuous and treated like a request-construction failure. -/
inductive Exchange where
  | newRequestErr (e : GoError)
  | setBodyErr (e : GoError)
  | doErr (e : GoError)
  | ok (resp : Response)
deriving DecidableEq

/-- Result triple of an unexported single-document operator. -/
structure OpResult where
  meta : DocumentMeta
  cs : contextSettings
  err : Option GoError
deriving DecidableEq

/-- `createDocument` (lines 81-116): nil check, `POST`, status check against
`okStatus(201, 202)`, silent short-circuit, primary envelope, then the
`new` envelope when the `ReturnNew` sink is set.  Failures before
`applyContextSettings` return the zero `contextSettings`. -/
def createDocument (documentIsNil : Bool) (cs : contextSettings) (ex : Exchange) : OpResult :=
  if documentIsNil then ⟨DocumentMeta.zero, csZero, some (.invalidArgument "document nil")⟩
  else
    match ex with
    | .newRequestErr e => ⟨DocumentMeta.zero, csZero, some e⟩
    | .setBodyErr e => ⟨DocumentMeta.zero, csZero, some e⟩
    | .doErr e => ⟨DocumentMeta.zero, cs, some e⟩
    | .ok resp =>
      match resp.CheckStatus [cs.okStatus 201 202] with
      | some e => ⟨DocumentMeta.zero, cs, some e⟩
      | none =>
        if cs.Silent then ⟨DocumentMeta.zero, cs, none⟩
        else
          match resp.parseEdge with
          | none => ⟨DocumentMeta.zero, cs, some (.decodeError "edge")⟩
          | some meta =>
            if cs.ReturnNew && !resp.parseNewOk then ⟨meta, cs, some (.decodeError "new")⟩
            else ⟨meta, cs, none⟩

/-- `updateDocument` (lines 169-214): key validation, nil check, `PATCH`,
status check against `{200, 201, 202}`, silent short-circuit, primary
envelope, then `old` and `new` envelopes in that order. -/
def updateDocument (key : String) (updateIsNil : Bool) (cs : contextSettings)
    (ex : Exchange) : OpResult :=
  match validateKey key with
  | some e => ⟨DocumentMeta.zero, csZero, some e⟩
  | none =>
    if updateIsNil then ⟨DocumentMeta.zero, csZero, some (.invalidArgument "update nil")⟩
    else
      match ex with
      | .newRequestErr e => ⟨DocumentMeta.zero, csZero, some e⟩
      | .setBodyErr e => ⟨DocumentMeta.zero, csZero, some e⟩
      | .doErr e => ⟨DocumentMeta.zero, cs, some e⟩
      | .ok resp =>
        match resp.CheckStatus [200, 201, 202] with
        | some e => ⟨DocumentMeta.zero, cs, some e⟩
        | none =>
          if cs.Silent then ⟨DocumentMeta.zero, cs, none⟩
          else
            match resp.parseEdge with
            | none => ⟨DocumentMeta.zero, cs, some (.decodeError "edge")⟩
            | some meta =>
              if cs.ReturnOld && !resp.parseOldOk then ⟨meta, cs, some (.decodeError "old")⟩
              else if cs.ReturnNew && !resp.parseNewOk then ⟨meta, cs, some (.decodeError "new")⟩
              else ⟨meta, cs, none⟩

/-- `replaceDocument` (lines 284-329): like `updateDocument` but `PUT` with
status check against `okStatus(201, 202)`. -/
def replaceDocument (key : String) (documentIsNil : Bool) (cs : contextSettings)
    (ex : Exchange) : OpResult :=
  match validateKey key with
  | some e => ⟨DocumentMeta.zero, csZero, some e⟩
  | none =>
    if documentIsNil then ⟨DocumentMeta.zero, csZero, some (.invalidArgument "document nil")⟩
    else
      match ex with
      | .newRequestErr e => ⟨DocumentMeta.zero, csZero, some e⟩
      | .setBodyErr e => ⟨DocumentMeta.zero, csZero, some e⟩
      | .doErr e => ⟨DocumentMeta.zero, cs, some e⟩
      | .ok resp =>
        match resp.CheckStatus [cs.okStatus 201 202] with
        | some e => ⟨DocumentMeta.zero, cs, some e⟩
        | none =>
          if cs.Silent then ⟨DocumentMeta.zero, cs, none⟩
          else
            match resp.parseEdge with
            | none => ⟨DocumentMeta.zero, cs, some (.decodeError "edge")⟩
            | some meta =>
              if cs.ReturnOld && !resp.parseOldOk then ⟨meta, cs, some (.decodeError "old")⟩
              else if cs.ReturnNew && !resp.parseNewOk then ⟨meta, cs, some (.decodeError "new")⟩
              else ⟨meta, cs, none⟩

/-- `removeDocument` (lines 398-431): key validation, `DELETE` (no body),
status check against `okStatus(200, 202)`, silent short-circuit, primary
envelope, then the `old` envelope. -/
def removeDocument (key : String) (cs : contextSettings) (ex : Exchange) : OpResult :=
  match validateKey key with
  | some e => ⟨DocumentMeta.zero, csZero, some e⟩
  | none =>
    match ex with
    | .newRequestErr e => ⟨DocumentMeta.zero, csZero, some e⟩
    | .setBodyErr e => ⟨DocumentMeta.zero, csZero, some e⟩
    | .doErr e => ⟨DocumentMeta.zero, cs, some e⟩
    | .ok resp =>
      match resp.CheckStatus [cs.okStatus 200 202] with
      | some e => ⟨DocumentMeta.zero, cs, some e⟩
      | none =>
        if cs.Silent then ⟨DocumentMeta.zero, cs, none⟩
        else
          match resp.parseEdge with
          | none => ⟨DocumentMeta.zero, cs, some (.decodeError "edge")⟩
          | some meta =>
            if cs.ReturnOld && !resp.parseOldOk then ⟨meta, cs, some (.decodeError "old")⟩
            else ⟨meta, cs, none⟩

/-- `ReadDocument` (lines 36-64): key validation, `GET`, status check
against `{200}`, primary envelope into the meta, then (when a result sink
was passed) the same envelope into the sink; a failure of that second parse
returns the already-decoded meta together with the error. -/
def ReadDocument (key : String) (hasResult : Bool) (ex : Exchange) :
    DocumentMeta × Option GoError :=
  match validateKey key with
  | some e => (DocumentMeta.zero, some e)
  | none =>
    match ex with
    | .newRequestErr e => (DocumentMeta.zero, some e)
    | .setBodyErr e => (DocumentMeta.zero, some e)
    | .doErr e => (DocumentMeta.zero, some e)
    | .ok resp =>
      match resp.CheckStatus [200] with
      | some e => (DocumentMeta.zero, some e)
      | none =>
        match resp.parseEdge with
        | none => (DocumentMeta.zero, some (.decodeError "edge"))
        | some meta =>
          if hasResult && !resp.parseResultOk then (meta, some (.decodeError "edge"))
          else (meta, none)

/-- `CreateDocument` (lines 73-79): exported wrapper that discards the
operator's metadata whenever an error is returned. -/
def CreateDocument (documentIsNil : Bool) (cs : contextSettings) (ex : Exchange) :
    DocumentMeta × Option GoError :=
  let r := createDocument documentIsNil cs ex
  match r.err with
  | some e => (DocumentMeta.zero, some e)
  | none => (r.meta, none)

/-- `UpdateDocument` (lines 161-167): exported wrapper, zero meta on error. -/
def UpdateDocument (key : String) (updateIsNil : Bool) (cs : contextSettings)
    (ex : Exchange) : DocumentMeta × Option GoError :=
  let r := updateDocument key updateIsNil cs ex
  match r.err with
  | some e => (DocumentMeta.zero, some e)
  | none => (r.meta, none)

/-- `ReplaceDocument` (lines 276-282): exported wrapper, zero meta on error. -/
def ReplaceDocument (key : String) (documentIsNil : Bool) (cs : contextSettings)
    (ex : Exchange) : DocumentMeta × Option GoError :=
  let r := replaceDocument key documentIsNil cs ex
  match r.err with
  | some e => (DocumentMeta.zero, some e)
  | none => (r.meta, none)

/-- `RemoveDocument` (lines 390-396): exported wrapper, zero meta on error. -/
def RemoveDocument (key : String) (cs : contextSettings) (ex : Exchange) :
    DocumentMeta × Option GoError :=
  let r := removeDocument key cs ex
  match r.err with
  | some e => (DocumentMeta.zero, some e)
  | none => (r.meta, none)

/-! ## Batch operations

All four batch loops share one shape: pre-allocate `metas`/`errs` of the
item count, then per index either invoke the single-document operator
(`run`), record a key-extraction error and `continue` (`skip`), or hit a Go
runtime panic inside `getKeyFromDocument` (`abortPanicking`).  The loop is
embedded as `runFrom` over the index list; the per-call `ctx` is the same
for every item, so each item's action is a pure function of its index.  In
addition to the Go return triple, the embedding records the trace of item
indices whose single-document operator was invoked, which makes "no request
was issued for this item" statable. -/

/-- What the loop body does for one item. -/
inductive ItemAction where
  | run (r : OpResult)
  | skip (e : GoError)
  | abortPanicking (msg : String)

/-- Whether the action invokes the single-document operator. -/
def ItemAction.runB : ItemAction → Bool
  | .run _ => true
  | _ => false

/-- Whether the action is an operator invocation that reported a silent
configuration. -/
def ItemAction.silentB : ItemAction → Bool
  | .run r => r.cs.Silent
  | _ => false

/-- Whether the action panics. -/
def ItemAction.panicB : ItemAction → Bool
  | .abortPanicking _ => true
  | _ => false

/-- The `(DocumentMetaSlice, ErrorSlice, error)` triple returned by a batch
call; `none` slices are Go `nil` slices. -/
structure BatchReturn where
  metas : Option (List DocumentMeta)
  errs : Option (List (Option GoError))
  err : Option GoError
deriving DecidableEq

/-- Outcome of a batch call: a normal return or a propagated panic, in both
cases together with the trace of indices whose single-document operator was
invoked. -/
inductive BatchResult where
  | ret (r : BatchReturn) (trace : List Nat)
  | panicked (msg : String) (trace : List Nat)
deriving DecidableEq

/-- The returned triple of a non-panicking batch call. -/
def BatchResult.retVal : BatchResult → Option BatchReturn
  | .ret r _ => some r
  | .panicked _ _ => none

/-- The request trace of a batch call. -/
def BatchResult.trace : BatchResult → List Nat
  | .ret _ t => t
  | .panicked _ t => t

/-- The mutable state of a batch loop: the two pre-allocated result slices,
the `silent` flag, and the instrumentation trace. -/
structure LoopState where
  metas : List DocumentMeta
  errs : List (Option GoError)
  silent : Bool
  trace : List Nat

/-- The shared batch loop (`for i := 0; i < n; i++`) over the remaining
index list, followed by the shared epilogue: a batch in which any item
reported silent returns `(nil, nil, nil)`, otherwise the two slices are
returned with a nil error. -/
def runFrom (action : Nat → ItemAction) : List Nat → LoopState → BatchResult
  | [], st =>
    if st.silent then .ret ⟨none, none, none⟩ st.trace
    else .ret ⟨some st.metas, some st.errs, none⟩ st.trace
  | i :: rest, st =>
    match action i with
    | .abortPanicking msg => .panicked msg st.trace
    | .skip e => runFrom action rest { st with errs := st.errs.set i (some e) }
    | .run r =>
      if r.cs.Silent then
        runFrom action rest { st with silent := true, trace := st.trace ++ [i] }
      else
        runFrom action rest
          { st with
            metas := st.metas.set i r.meta
            errs := st.errs.set i r.err
            trace := st.trace ++ [i] }

/-- A whole batch loop over `n` items, starting from the pre-allocated
zero-valued slices (`make(DocumentMetaSlice, n)` / `make(ErrorSlice, n)`). -/
def runBatch (n : Nat) (action : Nat → ItemAction) : BatchResult :=
  runFrom action (List.range n)
    ⟨List.replicate n DocumentMeta.zero, List.replicate n none, false, []⟩

/-- The per-item action of `CreateDocuments` (lines 140-148): the operator
is invoked for every item. -/
def createAction (cs : contextSettings) (items : List GoValue) (ex : Nat → Exchange)
    (i : Nat) : ItemAction :=
  .run (createDocument (items.getD i .invalid).interfaceIsNil cs (ex i))

/-- The per-item action of `UpdateDocuments` (lines 244-262): with explicit
keys the operator runs on `keys[i]`; without them the key is extracted from
the item first, an extraction error is recorded and the item skipped, and an
extraction panic aborts the call. -/
def updateAction (cs : contextSettings) (keys : Option (List String))
    (items : List GoValue) (ex : Nat → Exchange) (i : Nat) : ItemAction :=
  match keys with
  | some ks =>
    .run (updateDocument (ks.getD i "") (items.getD i .invalid).interfaceIsNil cs (ex i))
  | none =>
    match getKeyFromDocument (items.getD i .invalid) with
    | .panicked msg => .abortPanicking msg
    | .err e => .skip e
    | .ok k => .run (updateDocument k (items.getD i .invalid).interfaceIsNil cs (ex i))

/-- The per-item action of `ReplaceDocuments` (lines 359-377). -/
def replaceAction (cs : contextSettings) (keys : Option (List String))
    (items : List GoValue) (ex : Nat → Exchange) (i : Nat) : ItemAction :=
  match keys with
  | some ks =>
    .run (replaceDocument (ks.getD i "") (items.getD i .invalid).interfaceIsNil cs (ex i))
  | none =>
    match getKeyFromDocument (items.getD i .invalid) with
    | .panicked msg => .abortPanicking msg
    | .err e => .skip e
    | .ok k => .run (replaceDocument k (items.getD i .invalid).interfaceIsNil cs (ex i))

/-- The per-item action of `RemoveDocuments` (lines 448-456). -/
def removeAction (cs : contextSettings) (keys : List String) (ex : Nat → Exchange)
    (i : Nat) : ItemAction :=
  .run (removeDocument (keys.getD i "") cs (ex i))

/-- First validation error of a key list, as produced by the
`for _, key := range keys` prologue of the keyed batch calls. -/
def validateKeys : List String → Option GoError
  | [] => none
  | k :: rest =>
    match validateKey k with
    | some e => some e
    | none => validateKeys rest

/-- The `InvalidArgumentError` message for a key-count mismatch; the Go
format string uses `%s` on an `int`, which `fmt` renders as `%!s(int=n)`. -/
def mismatchMsg (want got : Nat) : String :=
  "expected " ++ toString want ++ " keys, got %!s(int=" ++ toString got ++ ")"

/-- The `InvalidArgumentError` message for a non-array-like argument. -/
def notArrayMsg (what : String) (v : GoValue) : String :=
  what ++ " data must be of kind Array, got " ++ v.kind

/-- `CreateDocuments` (lines 128-153): kind check on the documents
argument, then the batch loop. -/
def CreateDocuments (cs : contextSettings) (documents : GoValue) (ex : Nat → Exchange) :
    BatchResult :=
  match documents with
  | .slice items => runBatch items.length (createAction cs items ex)
  | v => .ret ⟨none, none, some (.invalidArgument (notArrayMsg "documents" v))⟩ []

/-- `UpdateDocuments` (lines 222-268): kind check, then — when explicit keys
are given — the count check and the validation of every key before any
per-item work, then the batch loop. -/
def UpdateDocuments (cs : contextSettings) (keys : Option (List String))
    (updates : GoValue) (ex : Nat → Exchange) : BatchResult :=
  match updates with
  | .slice items =>
    match keys with
    | some ks =>
      if ks.length ≠ items.length then
        .ret ⟨none, none, some (.invalidArgument (mismatchMsg items.length ks.length))⟩ []
      else
        match validateKeys ks with
        | some e => .ret ⟨none, none, some e⟩ []
        | none => runBatch items.length (updateAction cs (some ks) items ex)
    | none => runBatch items.length (updateAction cs none items ex)
  | v => .ret ⟨none, none, some (.invalidArgument (notArrayMsg "updates" v))⟩ []

/-- `ReplaceDocuments` (lines 337-383): same prologue as `UpdateDocuments`,
then the replace batch loop. -/
def ReplaceDocuments (cs : contextSettings) (keys : Option (List String))
    (documents : GoValue) (ex : Nat → Exchange) : BatchResult :=
  match documents with
  | .slice items =>
    match keys with
    | some ks =>
      if ks.length ≠ items.length then
        .ret ⟨none, none, some (.invalidArgument (mismatchMsg items.length ks.length))⟩ []
      else
        match validateKeys ks with
        | some e => .ret ⟨none, none, some e⟩ []
        | none => runBatch items.length (replaceAction cs (some ks) items ex)
    | none => runBatch items.length (replaceAction cs none items ex)
  | v => .ret ⟨none, none, some (.invalidArgument (notArrayMsg "documents" v))⟩ []

/-- `RemoveDocuments` (lines 438-461): every key is validated before the
loop; the item count is the key count. -/
def RemoveDocuments (cs : contextSettings) (keys : List String) (ex : Nat → Exchange) :
    BatchResult :=
  match validateKeys keys with
  | some e => .ret ⟨none, none, some e⟩ []
  | none => runBatch keys.length (removeAction cs keys ex)

/-! ## Generic lemmas about the batch loop -/

theorem getD_set_ne {α : Type} (xs : List α) {i j : Nat} (v d : α) (h : i ≠ j) :
    (xs.set i v).getD j d = xs.getD j d := by
  simp [List.getD_eq_getElem?_getD, List.getElem?_set_ne h]

theorem getD_set_self {α : Type} (xs : List α) {i : Nat} (v d : α) (h : i < xs.length) :
    (xs.set i v).getD i d = v := by
  simp [List.getD_eq_getElem?_getD, List.getElem?_set_eq_of_lt v h]

theorem getD_replicate {α : Type} (n j : Nat) (a : α) :
    (List.replicate n a).getD j a = a := by
  simp [List.getD_eq_getElem?_getD]

/-- If no remaining item panics and the silent flag is set — either already,
or by some remaining invoked item — the loop ends in the silent collapse and
the call returns `(nil, nil, nil)`. -/
theorem runFrom_collapse (action : Nat → ItemAction) (l : List Nat) (st : LoopState)
    (hp : ∀ i ∈ l, (action i).panicB = false)
    (hs : st.silent = true ∨ ∃ i ∈ l, (action i).silentB = true) :
    (runFrom action l st).retVal = some ⟨none, none, none⟩ := by
  induction l generalizing st with
  | nil =>
    rcases hs with h | ⟨i, hi, _⟩
    · simp [runFrom, h, BatchResult.retVal]
    · exact absurd hi (List.not_mem_nil i)
  | cons i rest ih =>
    have hpi := hp i (List.mem_cons_self i rest)
    cases ha : action i with
    | abortPanicking m =>
      rw [ha] at hpi
      simp [ItemAction.panicB] at hpi
    | skip e =>
      simp only [runFrom, ha]
      apply ih _ (fun j hj => hp j (List.mem_cons_of_mem _ hj))
      rcases hs with h | ⟨j, hj, hsj⟩
      · exact Or.inl h
      · rcases List.mem_cons.mp hj with rfl | hj'
        · rw [ha] at hsj; simp [ItemAction.silentB] at hsj
        · exact Or.inr ⟨j, hj', hsj⟩
    | run r =>
      by_cases hrs : r.cs.Silent = true
      · simp only [runFrom, ha, hrs, if_true]
        exact ih _ (fun j hj => hp j (List.mem_cons_of_mem _ hj)) (Or.inl rfl)
      · simp only [runFrom, ha, hrs, if_false, Bool.false_eq_true]
        apply ih _ (fun j hj => hp j (List.mem_cons_of_mem _ hj))
        rcases hs with h | ⟨j, hj, hsj⟩
        · exact Or.inl h
        · rcases List.mem_cons.mp hj with rfl | hj'
          · rw [ha] at hsj; simp [ItemAction.silentB] at hsj; exact absurd hsj hrs
          · exact Or.inr ⟨j, hj', hsj⟩

/-- Master lemma for a loop in which no remaining item panics or reports
silent: the call returns the two slices and a nil error; the slices keep
their lengths, untouched indices keep their entries, a skipped index records
exactly its extraction error, an invoked index records exactly its operator
result, and the trace extends by exactly the invoked indices in order. -/
theorem runFrom_plain (action : Nat → ItemAction) (l : List Nat) (st : LoopState)
    (hnd : l.Nodup)
    (hp : ∀ i ∈ l, (action i).panicB = false)
    (hs : ∀ i ∈ l, (action i).silentB = false)
    (hsil : st.silent = false)
    (hlen : ∀ i ∈ l, i < st.metas.length ∧ i < st.errs.length) :
    ∃ M E T, runFrom action l st = .ret ⟨some M, some E, none⟩ T ∧
      M.length = st.metas.length ∧ E.length = st.errs.length ∧
      T = st.trace ++ l.filter (fun i => (action i).runB) ∧
      (∀ j, j ∉ l →
        M.getD j DocumentMeta.zero = st.metas.getD j DocumentMeta.zero ∧
        E.getD j none = st.errs.getD j none) ∧
      (∀ j ∈ l,
        (∀ e, action j = .skip e →
          M.getD j DocumentMeta.zero = st.metas.getD j DocumentMeta.zero ∧
          E.getD j none = some e) ∧
        (∀ r, action j = .run r →
          M.getD j DocumentMeta.zero = r.meta ∧ E.getD j none = r.err)) := by
  induction l generalizing st with
  | nil =>
    refine ⟨st.metas, st.errs, st.trace, by simp [runFrom, hsil], rfl, rfl, by simp, ?_, ?_⟩
    · intro j _; exact ⟨rfl, rfl⟩
    · intro j hj; exact absurd hj (List.not_mem_nil j)
  | cons i rest ih =>
    obtain ⟨hi_notmem, hndrest⟩ := List.nodup_cons.mp hnd
    have hpi := hp i (List.mem_cons_self i rest)
    have hsi := hs i (List.mem_cons_self i rest)
    have hleni := hlen i (List.mem_cons_self i rest)
    cases ha : action i with
    | abortPanicking m =>
      rw [ha] at hpi
      simp [ItemAction.panicB] at hpi
    | skip e =>
      obtain ⟨M, E, T, hrun, hMl, hEl, hT, hout, hin⟩ :=
        ih { st with errs := st.errs.set i (some e) } hndrest
          (fun j hj => hp j (List.mem_cons_of_mem _ hj))
          (fun j hj => hs j (List.mem_cons_of_mem _ hj)) hsil
          (fun j hj => by
            have h := hlen j (List.mem_cons_of_mem _ hj)
            simpa using h)
      refine ⟨M, E, T, ?_, ?_, ?_, ?_, ?_, ?_⟩
      · simp only [runFrom, ha]; exact hrun
      · simpa using hMl
      · simpa using hEl
      · rw [hT]
        have : (action i).runB = false := by rw [ha]; rfl
        simp [List.filter_cons, this]
      · intro j hj
        have hji : j ≠ i := fun h => hj (h ▸ List.mem_cons_self i rest)
        have hjr : j ∉ rest := fun h => hj (List.mem_cons_of_mem _ h)
        obtain ⟨hM, hE⟩ := hout j hjr
        refine ⟨hM, ?_⟩
        rw [hE]
        exact getD_set_ne _ _ _ (fun h => hji h.symm)
      · intro j hj
        rcases List.mem_cons.mp hj with rfl | hj'
        · constructor
          · intro e' he'
            rw [ha] at he'
            obtain rfl : e = e' := by cases he'; rfl
            obtain ⟨hM, hE⟩ := hout j hi_notmem
            refine ⟨hM, ?_⟩
            rw [hE]
            exact getD_set_self _ _ _ hleni.2
          · intro r hr
            rw [ha] at hr
            cases hr
        · constructor
          · intro e' he'
            obtain ⟨hM, hE⟩ := (hin j hj').1 e' he'
            exact ⟨hM, hE⟩
          · intro r hr
            exact (hin j hj').2 r hr
    | run r =>
      rw [ha] at hsi
      have hrs : r.cs.Silent = false := hsi
      obtain ⟨M, E, T, hrun, hMl, hEl, hT, hout, hin⟩ :=
        ih { st with
              metas := st.metas.set i r.meta
              errs := st.errs.set i r.err
              trace := st.trace ++ [i] } hndrest
          (fun j hj => hp j (List.mem_cons_of_mem _ hj))
          (fun j hj => hs j (List.mem_cons_of_mem _ hj)) hsil
          (fun j hj => by
            have h := hlen j (List.mem_cons_of_mem _ hj)
            simpa using h)
      refine ⟨M, E, T, ?_, ?_, ?_, ?_, ?_, ?_⟩
      · simp only [runFrom, ha, hrs, Bool.false_eq_true, if_false]; exact hrun
      · simpa using hMl
      · simpa using hEl
      · rw [hT]
        have : (action i).runB = true := by rw [ha]; rfl
        simp [List.filter_cons, this]
      · intro j hj
        have hji : j ≠ i := fun h => hj (h ▸ List.mem_cons_self i rest)
        have hjr : j ∉ rest := fun h => hj (List.mem_cons_of_mem _ h)
        obtain ⟨hM, hE⟩ := hout j hjr
        constructor
        · rw [hM]; exact getD_set_ne _ _ _ (fun h => hji h.symm)
        · rw [hE]; exact getD_set_ne _ _ _ (fun h => hji h.symm)
      · intro j hj
        rcases List.mem_cons.mp hj with rfl | hj'
        · constructor
          · intro e' he'
            rw [ha] at he'
            cases he'
          · intro r' hr'
            rw [ha] at hr'
            obtain rfl : r = r' := by cases hr'; rfl
            obtain ⟨hM, hE⟩ := hout j hi_notmem
            constructor
            · rw [hM]; exact getD_set_self _ _ _ hleni.1
            · rw [hE]; exact getD_set_self _ _ _ hleni.2
        · constructor
          · intro e' he'
            obtain ⟨hM, hE⟩ := (hin j hj').1 e' he'
            refine ⟨?_, hE⟩
            rw [hM]
            have hji : i ≠ j := fun h => hi_notmem (h ▸ hj')
            exact getD_set_ne _ _ _ hji
          · intro r' hr'
            exact (hin j hj').2 r' hr'

/-! ## Facts about the single-document operators -/

/-- With the `ReturnNew` sink unset, `createDocument` never pairs a non-zero
meta with an error. -/
theorem createDocument_err_zero (b : Bool) (cs : contextSettings) (ex : Exchange)
    (hRN : cs.ReturnNew = false) :
    (createDocument b cs ex).err ≠ none → (createDocument b cs ex).meta = DocumentMeta.zero := by
  unfold createDocument
  split
  · intro _; rfl
  · split
    · intro _; rfl
    · intro _; rfl
    · intro _; rfl
    · split
      · intro _; rfl
      · split
        · intro h; simp at h
        · split
          · intro _; rfl
          · rw [hRN]
            simp only [Bool.false_and, Bool.false_eq_true, if_false]
            intro h
            simp at h

/-- With both sinks unset, `updateDocument` never pairs a non-zero meta
with an error. -/
theorem updateDocument_err_zero (k : String) (b : Bool) (cs : contextSettings) (ex : Exchange)
    (hRO : cs.ReturnOld = false) (hRN : cs.ReturnNew = false) :
    (updateDocument k b cs ex).err ≠ none →
      (updateDocument k b cs ex).meta = DocumentMeta.zero := by
  unfold updateDocument
  split
  · intro _; rfl
  · split
    · intro _; rfl
    · split
      · intro _; rfl
      · intro _; rfl
      · intro _; rfl
      · split
        · intro _; rfl
        · split
          · intro h; simp at h
          · split
            · intro _; rfl
            · rw [hRO, hRN]
              simp only [Bool.false_and, Bool.false_eq_true, if_false]
              intro h
              simp at h

/-- With both sinks unset, `replaceDocument` never pairs a non-zero meta
with an error. -/
theorem replaceDocument_err_zero (k : String) (b : Bool) (cs : contextSettings) (ex : Exchange)
    (hRO : cs.ReturnOld = false) (hRN : cs.ReturnNew = false) :
    (replaceDocument k b cs ex).err ≠ none →
      (replaceDocument k b cs ex).meta = DocumentMeta.zero := by
  unfold replaceDocument
  split
  · intro _; rfl
  · split
    · intro _; rfl
    · split
      · intro _; rfl
      · intro _; rfl
      · intro _; rfl
      · split
        · intro _; rfl
        · split
          · intro h; simp at h
          · split
            · intro _; rfl
            · rw [hRO, hRN]
              simp only [Bool.false_and, Bool.false_eq_true, if_false]
              intro h
              simp at h

/-- With the `ReturnOld` sink unset, `removeDocument` never pairs a
non-zero meta with an error. -/
theorem removeDocument_err_zero (k : String) (cs : contextSettings) (ex : Exchange)
    (hRO : cs.ReturnOld = false) :
    (removeDocument k cs ex).err ≠ none →
      (removeDocument k cs ex).meta = DocumentMeta.zero := by
  unfold removeDocument
  split
  · intro _; rfl
  · split
    · intro _; rfl
    · intro _; rfl
    · intro _; rfl
    · split
      · intro _; rfl
      · split
        · intro h; simp at h
        · split
          · intro _; rfl
          · rw [hRO]
            simp only [Bool.false_and, Bool.false_eq_true, if_false]
            intro h
            simp at h

/-! ## Shared claim predicates and bridge lemmas -/

/-- No item below `n` panics. -/
def actionsNoPanic (action : Nat → ItemAction) (n : Nat) : Prop :=
  ∀ i < n, (action i).panicB = false

/-- No item below `n` is processed under a silent configuration. -/
def actionsNonSilent (action : Nat → ItemAction) (n : Nat) : Prop :=
  ∀ i < n, (action i).silentB = false

/-- The explicit keys, when supplied, pass the batch prologue: matching
count and all keys valid. -/
def keysOk (keys : Option (List String)) (n : Nat) : Prop :=
  ∀ ks, keys = some ks → ks.length = n ∧ validateKeys ks = none

/-- The batch-result correlation invariant of the spec: a normal return
whose two slices have length `n` and in which no index carries both a
non-zero meta and an error — every index is either error-free or has the
zero meta next to its error. -/
def correlated (b : BatchResult) (n : Nat) : Prop :=
  ∃ M E T, b = .ret ⟨some M, some E, none⟩ T ∧ M.length = n ∧ E.length = n ∧
    ∀ j < n, E.getD j none = none ∨ M.getD j DocumentMeta.zero = DocumentMeta.zero

/-- `runBatch` version of the master lemma, starting from the zero-valued
pre-allocated slices. -/
theorem runBatch_plain (n : Nat) (action : Nat → ItemAction)
    (hp : actionsNoPanic action n) (hs : actionsNonSilent action n) :
    ∃ M E T, runBatch n action = .ret ⟨some M, some E, none⟩ T ∧
      M.length = n ∧ E.length = n ∧
      T = (List.range n).filter (fun i => (action i).runB) ∧
      (∀ j, j ∉ List.range n →
        M.getD j DocumentMeta.zero = DocumentMeta.zero ∧ E.getD j none = none) ∧
      (∀ j ∈ List.range n,
        (∀ e, action j = .skip e →
          M.getD j DocumentMeta.zero = DocumentMeta.zero ∧ E.getD j none = some e) ∧
        (∀ r, action j = .run r →
          M.getD j DocumentMeta.zero = r.meta ∧ E.getD j none = r.err)) := by
  obtain ⟨M, E, T, hrun, hMl, hEl, hT, hout, hin⟩ :=
    runFrom_plain action (List.range n)
      ⟨List.replicate n DocumentMeta.zero, List.replicate n none, false, []⟩
      (List.nodup_range n)
      (fun i hi => hp i (List.mem_range.mp hi))
      (fun i hi => hs i (List.mem_range.mp hi))
      rfl
      (fun i hi => by
        constructor <;> simpa using List.mem_range.mp hi)
  refine ⟨M, E, T, hrun, ?_, ?_, by simpa using hT, ?_, ?_⟩
  · simpa using hMl
  · simpa using hEl
  · intro j hj
    obtain ⟨hM, hE⟩ := hout j hj
    rw [hM, hE]
    exact ⟨getD_replicate _ _ _, getD_replicate _ _ _⟩
  · intro j hj
    refine ⟨?_, (hin j hj).2⟩
    intro e he
    obtain ⟨hM, hE⟩ := (hin j hj).1 e he
    rw [hM]
    exact ⟨getD_replicate _ _ _, hE⟩

/-- `runBatch` version of the silent-collapse lemma. -/
theorem runBatch_collapse (n : Nat) (action : Nat → ItemAction)
    (hp : actionsNoPanic action n) (hs : ∃ i < n, (action i).silentB = true) :
    (runBatch n action).retVal = some ⟨none, none, none⟩ := by
  apply runFrom_collapse
  · intro i hi
    exact hp i (List.mem_range.mp hi)
  · obtain ⟨i, hi, h⟩ := hs
    exact Or.inr ⟨i, List.mem_range.mpr hi, h⟩

/-- When the explicit-keys prologue passes, `UpdateDocuments` is exactly its
batch loop. -/
theorem UpdateDocuments_eq (cs : contextSettings) (keys : Option (List String))
    (items : List GoValue) (ex : Nat → Exchange) (hk : keysOk keys items.length) :
    UpdateDocuments cs keys (.slice items) ex =
      runBatch items.length (updateAction cs keys items ex) := by
  cases keys with
  | none => rfl
  | some ks =>
    obtain ⟨h1, h2⟩ := hk ks rfl
    simp [UpdateDocuments, h1, h2]

/-- When the explicit-keys prologue passes, `ReplaceDocuments` is exactly
its batch loop. -/
theorem ReplaceDocuments_eq (cs : contextSettings) (keys : Option (List String))
    (items : List GoValue) (ex : Nat → Exchange) (hk : keysOk keys items.length) :
    ReplaceDocuments cs keys (.slice items) ex =
      runBatch items.length (replaceAction cs keys items ex) := by
  cases keys with
  | none => rfl
  | some ks =>
    obtain ⟨h1, h2⟩ := hk ks rfl
    simp [ReplaceDocuments, h1, h2]

/-- When every key validates, `RemoveDocuments` is exactly its batch loop. -/
theorem RemoveDocuments_eq (cs : contextSettings) (keys : List String)
    (ex : Nat → Exchange) (hk : validateKeys keys = none) :
    RemoveDocuments cs keys ex = runBatch keys.length (removeAction cs keys ex) := by
  simp [RemoveDocuments, hk]

instance (action : Nat → ItemAction) (n : Nat) : Decidable (actionsNoPanic action n) :=
  inferInstanceAs (Decidable (∀ i, i < n → (action i).panicB = false))

instance (action : Nat → ItemAction) (n : Nat) : Decidable (actionsNonSilent action n) :=
  inferInstanceAs (Decidable (∀ i, i < n → (action i).silentB = false))

/-- A batch loop whose invoked items never pair a non-zero meta with an
error satisfies the correlation invariant. -/
theorem runBatch_correlated (n : Nat) (action : Nat → ItemAction)
    (hp : actionsNoPanic action n) (hs : actionsNonSilent action n)
    (hop : ∀ i < n, ∀ r, action i = .run r → r.err ≠ none → r.meta = DocumentMeta.zero) :
    correlated (runBatch n action) n := by
  obtain ⟨M, E, T, hrun, hMl, hEl, _, _, hin⟩ := runBatch_plain n action hp hs
  refine ⟨M, E, T, hrun, hMl, hEl, ?_⟩
  intro j hj
  have hjm : j ∈ List.range n := List.mem_range.mpr hj
  cases ha : action j with
  | abortPanicking m =>
    have h := hp j hj
    rw [ha] at h
    simp [ItemAction.panicB] at h
  | skip e =>
    exact Or.inr ((hin j hjm).1 e ha).1
  | run r =>
    obtain ⟨hM, hE⟩ := (hin j hjm).2 r ha
    cases he : r.err with
    | none => exact Or.inl (by rw [hE, he])
    | some e =>
      refine Or.inr ?_
      rw [hM]
      exact hop j hj r ha (by rw [he]; simp)

/-! ### Concrete fixtures for witnesses and counterexamples -/

/-- A call configuration with every option unset. -/
def csPlain : contextSettings :=
  {}

/-- A call configuration with only the `ReturnNew` sink set. -/
def csRN : contextSettings :=
  { ReturnNew := true }

/-- A call configuration with only `Silent` set. -/
def csSilent : contextSettings :=
  { Silent := true }

/-- A populated document meta. -/
def mA : DocumentMeta :=
  ⟨"a", "c/a", "r1"⟩

/-- A fully successful 202 response carrying `mA`. -/
def respOkA : Response :=
  ⟨202, some mA, true, true, true⟩

/-- A 202 response whose `new` envelope fails to decode. -/
def respNewFail : Response :=
  ⟨202, some mA, true, false, true⟩

/-- A 500 response. -/
def resp500 : Response :=
  ⟨500, some mA, true, true, true⟩

/-- Exchange ending in `respOkA`. -/
def exOkA : Exchange :=
  .ok respOkA

/-- Exchange ending in `respNewFail`. -/
def exNewFail : Exchange :=
  .ok respNewFail

/-- A pointer to a struct without a `_key`-tagged field. -/
def docNoKey : GoValue :=
  .ptr (some (.structV [("other", .str "v")]))

/-- A pointer to a struct whose `_key`-tagged field holds `"k1"`. -/
def docKeyK1 : GoValue :=
  .ptr (some (.structV [("_key", .str "k1")]))

/-! ## The claims -/

/-- C1, counterexample: a one-item `CreateDocuments` batch under a
`ReturnNew` configuration in which no item is processed under a silent
configuration, yet index 0 of the returned slices carries both a populated
(non-zero) meta and a non-nil error — the claimed exclusive `metas[i]` /
`errs[i]` split fails when the `new` envelope fails to decode after the
metadata stage succeeded. -/
theorem C1_counterexample :
    (createAction csRN [.str "x"] (fun _ => exNewFail) 0).silentB = false ∧
    CreateDocuments csRN (.slice [.str "x"]) (fun _ => exNewFail) =
      .ret ⟨some [mA], some [some (.decodeError "new")], none⟩ [0] ∧
    mA ≠ DocumentMeta.zero := by
  decide

/-- C1, amended: for every batch call (`CreateDocuments`,
`UpdateDocuments`, `ReplaceDocuments`, `RemoveDocuments`) over N items that
reaches its loop, in which no item is processed under a silent configuration
AND the `ReturnNew`/`ReturnOld` sinks are unset, the returned `metas` and
`errs` both have length N and for every index exactly one side is populated:
along an error the meta is the zero value. -/
theorem C1_correlation (cs : contextSettings)
    (hRN : cs.ReturnNew = false) (hRO : cs.ReturnOld = false) :
    (∀ items ex, actionsNonSilent (createAction cs items ex) items.length →
      correlated (CreateDocuments cs (.slice items) ex) items.length)
  ∧ (∀ keys items ex, keysOk keys items.length →
      actionsNoPanic (updateAction cs keys items ex) items.length →
      actionsNonSilent (updateAction cs keys items ex) items.length →
      correlated (UpdateDocuments cs keys (.slice items) ex) items.length)
  ∧ (∀ keys items ex, keysOk keys items.length →
      actionsNoPanic (replaceAction cs keys items ex) items.length →
      actionsNonSilent (replaceAction cs keys items ex) items.length →
      correlated (ReplaceDocuments cs keys (.slice items) ex) items.length)
  ∧ (∀ keys ex, validateKeys keys = none →
      actionsNonSilent (removeAction cs keys ex) keys.length →
      correlated (RemoveDocuments cs keys ex) keys.length) := by
  refine ⟨?_, ?_, ?_, ?_⟩
  · intro items ex hns
    apply runBatch_correlated items.length (createAction cs items ex) (fun i _ => rfl) hns
    intro i _ r hr
    cases hr
    exact createDocument_err_zero _ _ _ hRN
  · intro keys items ex hk hp hns
    rw [UpdateDocuments_eq cs keys items ex hk]
    apply runBatch_correlated _ _ hp hns
    intro i _ r hr
    cases keys with
    | some ks =>
      cases hr
      exact updateDocument_err_zero _ _ _ _ hRO hRN
    | none =>
      simp only [updateAction] at hr
      cases hg : getKeyFromDocument (items.getD i .invalid) with
      | panicked m => rw [hg] at hr; cases hr
      | err e => rw [hg] at hr; cases hr
      | ok k =>
        rw [hg] at hr
        cases hr
        exact updateDocument_err_zero _ _ _ _ hRO hRN
  · intro keys items ex hk hp hns
    rw [ReplaceDocuments_eq cs keys items ex hk]
    apply runBatch_correlated _ _ hp hns
    intro i _ r hr
    cases keys with
    | some ks =>
      cases hr
      exact replaceDocument_err_zero _ _ _ _ hRO hRN
    | none =>
      simp only [replaceAction] at hr
      cases hg : getKeyFromDocument (items.getD i .invalid) with
      | panicked m => rw [hg] at hr; cases hr
      | err e => rw [hg] at hr; cases hr
      | ok k =>
        rw [hg] at hr
        cases hr
        exact replaceDocument_err_zero _ _ _ _ hRO hRN
  · intro keys ex hv hns
    rw [RemoveDocuments_eq cs keys ex hv]
    apply runBatch_correlated keys.length (removeAction cs keys ex) (fun i _ => rfl) hns
    intro i _ r hr
    cases hr
    exact removeDocument_err_zero _ _ _ hRO

/-- C1, witness: the amended correlation theorem applied to a concrete
one-item create batch. -/
theorem C1_witness :
    correlated (CreateDocuments csPlain (.slice [.str "x"]) (fun _ => exOkA)) 1 :=
  (C1_correlation csPlain rfl rfl).1 [.str "x"] (fun _ => exOkA) (by decide)

/-- C2: for every batch call that reaches its loop, if at least one item's
single-document operation reports a silent configuration, the batch call
returns `(nil, nil, nil)` regardless of every other item's outcome. -/
theorem C2_silent_collapse (cs : contextSettings) :
    (∀ items ex, (∃ i < items.length, (createAction cs items ex i).silentB = true) →
      (CreateDocuments cs (.slice items) ex).retVal = some ⟨none, none, none⟩)
  ∧ (∀ keys items ex, keysOk keys items.length →
      actionsNoPanic (updateAction cs keys items ex) items.length →
      (∃ i < items.length, (updateAction cs keys items ex i).silentB = true) →
      (UpdateDocuments cs keys (.slice items) ex).retVal = some ⟨none, none, none⟩)
  ∧ (∀ keys items ex, keysOk keys items.length →
      actionsNoPanic (replaceAction cs keys items ex) items.length →
      (∃ i < items.length, (replaceAction cs keys items ex i).silentB = true) →
      (ReplaceDocuments cs keys (.slice items) ex).retVal = some ⟨none, none, none⟩)
  ∧ (∀ keys ex, validateKeys keys = none →
      (∃ i < keys.length, (removeAction cs keys ex i).silentB = true) →
      (RemoveDocuments cs keys ex).retVal = some ⟨none, none, none⟩) := by
  refine ⟨?_, ?_, ?_, ?_⟩
  · intro items ex hex
    exact runBatch_collapse items.length (createAction cs items ex) (fun i _ => rfl) hex
  · intro keys items ex hk hp hex
    rw [UpdateDocuments_eq cs keys items ex hk]
    exact runBatch_collapse _ _ hp hex
  · intro keys items ex hk hp hex
    rw [ReplaceDocuments_eq cs keys items ex hk]
    exact runBatch_collapse _ _ hp hex
  · intro keys ex hv hex
    rw [RemoveDocuments_eq cs keys ex hv]
    exact runBatch_collapse keys.length (removeAction cs keys ex) (fun i _ => rfl) hex

/-- C2, witness: a two-item batch in which both items fail or succeed under
the silent configuration collapses to `(nil, nil, nil)`. -/
theorem C2_witness :
    (CreateDocuments csSilent (.slice [.str "x", .str "y"]) (fun _ => exOkA)).retVal =
      some ⟨none, none, none⟩ :=
  (C2_silent_collapse csSilent).1 [.str "x", .str "y"] (fun _ => exOkA)
    ⟨0, by decide, by decide⟩

/-- C3: for `UpdateDocuments` and `ReplaceDocuments` with a non-nil explicit
key slice, a key-count mismatch fails the whole call with the
`InvalidArgumentError` of the prologue and an invalid key fails it with that
key's validation error; in both cases the returned slices are nil and the
empty trace shows that no single-document operation was invoked. -/
theorem C3_keys_prologue (cs : contextSettings) (ks : List String) (items : List GoValue)
    (ex : Nat → Exchange) :
    ((ks.length ≠ items.length →
        UpdateDocuments cs (some ks) (.slice items) ex =
          .ret ⟨none, none, some (.invalidArgument (mismatchMsg items.length ks.length))⟩ []) ∧
      (∀ e, ks.length = items.length → validateKeys ks = some e →
        UpdateDocuments cs (some ks) (.slice items) ex = .ret ⟨none, none, some e⟩ []))
  ∧ ((ks.length ≠ items.length →
        ReplaceDocuments cs (some ks) (.slice items) ex =
          .ret ⟨none, none, some (.invalidArgument (mismatchMsg items.length ks.length))⟩ []) ∧
      (∀ e, ks.length = items.length → validateKeys ks = some e →
        ReplaceDocuments cs (some ks) (.slice items) ex = .ret ⟨none, none, some e⟩ [])) := by
  refine ⟨⟨?_, ?_⟩, ⟨?_, ?_⟩⟩
  · intro h
    simp [UpdateDocuments, h]
  · intro e hlen hv
    simp [UpdateDocuments, hlen, hv]
  · intro h
    simp [ReplaceDocuments, h]
  · intro e hlen hv
    simp [ReplaceDocuments, hlen, hv]

/-- C3, witness: two keys against one update abort the batch before any
request. -/
theorem C3_witness :
    UpdateDocuments csPlain (some ["a", "b"]) (.slice [.str "x"]) (fun _ => exOkA) =
      .ret ⟨none, none, some (.invalidArgument (mismatchMsg 1 2))⟩ [] :=
  (C3_keys_prologue csPlain ["a", "b"] [.str "x"] (fun _ => exOkA)).1.1 (by decide)

/-- C4: for `UpdateDocuments`/`ReplaceDocuments` without explicit keys, an
item whose key extraction returns an error gets exactly that error at its
index, keeps the zero meta there, is absent from the request trace, and
every other item with a successful extraction is still invoked — the batch
is not aborted.  (The hypotheses restrict to loops whose extractions do not
panic and whose invoked operations are not silent, the cases governed by C7
and C2 respectively.) -/
theorem C4_extraction_isolated (cs : contextSettings) :
    (∀ items ex i e, i < items.length →
      actionsNoPanic (updateAction cs none items ex) items.length →
      actionsNonSilent (updateAction cs none items ex) items.length →
      getKeyFromDocument (items.getD i .invalid) = .err e →
      ∃ M E T, UpdateDocuments cs none (.slice items) ex = .ret ⟨some M, some E, none⟩ T ∧
        M.length = items.length ∧ E.length = items.length ∧
        E.getD i none = some e ∧ M.getD i DocumentMeta.zero = DocumentMeta.zero ∧
        T = (List.range items.length).filter
          (fun j => (updateAction cs none items ex j).runB) ∧
        i ∉ T)
  ∧ (∀ items ex i e, i < items.length →
      actionsNoPanic (replaceAction cs none items ex) items.length →
      actionsNonSilent (replaceAction cs none items ex) items.length →
      getKeyFromDocument (items.getD i .invalid) = .err e →
      ∃ M E T, ReplaceDocuments cs none (.slice items) ex = .ret ⟨some M, some E, none⟩ T ∧
        M.length = items.length ∧ E.length = items.length ∧
        E.getD i none = some e ∧ M.getD i DocumentMeta.zero = DocumentMeta.zero ∧
        T = (List.range items.length).filter
          (fun j => (replaceAction cs none items ex j).runB) ∧
        i ∉ T) := by
  constructor
  · intro items ex i e hi hp hs hg
    have hai : updateAction cs none items ex i = .skip e := by
      unfold updateAction
      rw [hg]
    obtain ⟨M, E, T, hrun, hMl, hEl, hT, _, hin⟩ :=
      runBatch_plain items.length (updateAction cs none items ex) hp hs
    obtain ⟨hM, hE⟩ := (hin i (List.mem_range.mpr hi)).1 e hai
    refine ⟨M, E, T, hrun, hMl, hEl, hE, hM, hT, ?_⟩
    rw [hT]
    intro hmem
    have h := (List.mem_filter.mp hmem).2
    rw [hai] at h
    simp [ItemAction.runB] at h
  · intro items ex i e hi hp hs hg
    have hai : replaceAction cs none items ex i = .skip e := by
      unfold replaceAction
      rw [hg]
    obtain ⟨M, E, T, hrun, hMl, hEl, hT, _, hin⟩ :=
      runBatch_plain items.length (replaceAction cs none items ex) hp hs
    obtain ⟨hM, hE⟩ := (hin i (List.mem_range.mpr hi)).1 e hai
    refine ⟨M, E, T, hrun, hMl, hEl, hE, hM, hT, ?_⟩
    rw [hT]
    intro hmem
    have h := (List.mem_filter.mp hmem).2
    rw [hai] at h
    simp [ItemAction.runB] at h

/-- C4, witness: in a two-item update batch whose first item lacks a `_key`
field, the extraction error lands at index 0, index 0 is never requested,
and the second item is still processed. -/
theorem C4_witness :
    ∃ M E T,
      UpdateDocuments csPlain none (.slice [docNoKey, docKeyK1]) (fun _ => exOkA) =
        .ret ⟨some M, some E, none⟩ T ∧
      M.length = 2 ∧ E.length = 2 ∧
      E.getD 0 none = some (.invalidArgument "Document contains no _key field") ∧
      M.getD 0 DocumentMeta.zero = DocumentMeta.zero ∧
      T = (List.range 2).filter
        (fun j => (updateAction csPlain none [docNoKey, docKeyK1] (fun _ => exOkA) j).runB) ∧
      0 ∉ T :=
  (C4_extraction_isolated csPlain).1 [docNoKey, docKeyK1] (fun _ => exOkA) 0
    (.invalidArgument "Document contains no _key field")
    (by decide) (by decide) (by decide) (by decide)

/-- C5: the status check is passed exactly the verb's own accepted set —
`{200}` for read, `{okStatus(201,202)}` for create and replace,
`{200,201,202}` for update, `{okStatus(200,202)}` for remove — a status in
the set passes (`CheckStatus` classifies exactly the complement as an
error), and a status outside it fails the operation with precisely the
error the status check produced. -/
theorem C5_status_sets (cs : contextSettings) (resp : Response) (k : String) (b : Bool) :
    (∀ accepted : List Nat, resp.CheckStatus accepted = none ↔ resp.status ∈ accepted)
  ∧ (∀ e, validateKey k = none → resp.CheckStatus [200] = some e →
      ReadDocument k b (.ok resp) = (DocumentMeta.zero, some e))
  ∧ (∀ e, resp.CheckStatus [cs.okStatus 201 202] = some e →
      createDocument false cs (.ok resp) = ⟨DocumentMeta.zero, cs, some e⟩)
  ∧ (∀ e, validateKey k = none → resp.CheckStatus [200, 201, 202] = some e →
      updateDocument k false cs (.ok resp) = ⟨DocumentMeta.zero, cs, some e⟩)
  ∧ (∀ e, validateKey k = none → resp.CheckStatus [cs.okStatus 201 202] = some e →
      replaceDocument k false cs (.ok resp) = ⟨DocumentMeta.zero, cs, some e⟩)
  ∧ (∀ e, validateKey k = none → resp.CheckStatus [cs.okStatus 200 202] = some e →
      removeDocument k cs (.ok resp) = ⟨DocumentMeta.zero, cs, some e⟩) := by
  refine ⟨?_, ?_, ?_, ?_, ?_, ?_⟩
  · intro accepted
    unfold Response.CheckStatus
    split_ifs with h1 h2 <;> simp [h1]
  · intro e hk hcs
    simp [ReadDocument, hk, hcs]
  · intro e hcs
    simp [createDocument, hcs]
  · intro e hk hcs
    simp [updateDocument, hk, hcs]
  · intro e hk hcs
    simp [replaceDocument, hk, hcs]
  · intro e hk hcs
    simp [removeDocument, hk, hcs]

/-- C5, witness: a 500 response fails all five verbs with the status-check
error. -/
theorem C5_witness :
    ReadDocument "k" false (.ok resp500) = (DocumentMeta.zero, some (.responseError 500)) ∧
    createDocument false csPlain (.ok resp500) =
      ⟨DocumentMeta.zero, csPlain, some (.responseError 500)⟩ ∧
    updateDocument "k" false csPlain (.ok resp500) =
      ⟨DocumentMeta.zero, csPlain, some (.responseError 500)⟩ ∧
    replaceDocument "k" false csPlain (.ok resp500) =
      ⟨DocumentMeta.zero, csPlain, some (.responseError 500)⟩ ∧
    removeDocument "k" csPlain (.ok resp500) =
      ⟨DocumentMeta.zero, csPlain, some (.responseError 500)⟩ :=
  ⟨(C5_status_sets csPlain resp500 "k" false).2.1 _ (by decide) (by decide),
   (C5_status_sets csPlain resp500 "k" false).2.2.1 _ (by decide),
   (C5_status_sets csPlain resp500 "k" false).2.2.2.1 _ (by decide) (by decide),
   (C5_status_sets csPlain resp500 "k" false).2.2.2.2.1 _ (by decide) (by decide),
   (C5_status_sets csPlain resp500 "k" false).2.2.2.2.2 _ (by decide) (by decide)⟩

/-- C6, counterexample: a `ReturnNew` decode failure after a successful
metadata stage makes the unexported operator return the decoded meta `mA`
alongside the error, but the single-document write operation
`CreateDocument` returns the zero meta with that error — the caller does
not retain the identifying info. -/
theorem C6_counterexample :
    (createDocument false csRN exNewFail).meta = mA ∧
    mA ≠ DocumentMeta.zero ∧
    (createDocument false csRN exNewFail).err = some (.decodeError "new") ∧
    CreateDocument false csRN exNewFail = (DocumentMeta.zero, some (.decodeError "new")) := by
  decide

/-- C6, amended: a decode failure of any envelope fails the operation; the
unexported operators (`createDocument`, `updateDocument`,
`replaceDocument`, `removeDocument`) return the partially-populated
metadata decoded so far alongside the error (the zero value when the
primary envelope itself failed), while the exported single-document
wrappers discard it and return the zero metadata with any error. -/
theorem C6_decode_partial_meta (cs : contextSettings) (resp : Response) (k : String) :
    (resp.CheckStatus [cs.okStatus 201 202] = none → cs.Silent = false →
      (resp.parseEdge = none →
        createDocument false cs (.ok resp) = ⟨DocumentMeta.zero, cs, some (.decodeError "edge")⟩) ∧
      (∀ m, resp.parseEdge = some m → cs.ReturnNew = true → resp.parseNewOk = false →
        createDocument false cs (.ok resp) = ⟨m, cs, some (.decodeError "new")⟩))
  ∧ (validateKey k = none → resp.CheckStatus [200, 201, 202] = none → cs.Silent = false →
      (resp.parseEdge = none →
        updateDocument k false cs (.ok resp) = ⟨DocumentMeta.zero, cs, some (.decodeError "edge")⟩) ∧
      (∀ m, resp.parseEdge = some m → cs.ReturnOld = true → resp.parseOldOk = false →
        updateDocument k false cs (.ok resp) = ⟨m, cs, some (.decodeError "old")⟩) ∧
      (∀ m, resp.parseEdge = some m → (cs.ReturnOld = false ∨ resp.parseOldOk = true) →
        cs.ReturnNew = true → resp.parseNewOk = false →
        updateDocument k false cs (.ok resp) = ⟨m, cs, some (.decodeError "new")⟩))
  ∧ (validateKey k = none → resp.CheckStatus [cs.okStatus 201 202] = none → cs.Silent = false →
      (resp.parseEdge = none →
        replaceDocument k false cs (.ok resp) = ⟨DocumentMeta.zero, cs, some (.decodeError "edge")⟩) ∧
      (∀ m, resp.parseEdge = some m → cs.ReturnOld = true → resp.parseOldOk = false →
        replaceDocument k false cs (.ok resp) = ⟨m, cs, some (.decodeError "old")⟩) ∧
      (∀ m, resp.parseEdge = some m → (cs.ReturnOld = false ∨ resp.parseOldOk = true) →
        cs.ReturnNew = true → resp.parseNewOk = false →
        replaceDocument k false cs (.ok resp) = ⟨m, cs, some (.decodeError "new")⟩))
  ∧ (validateKey k = none → resp.CheckStatus [cs.okStatus 200 202] = none → cs.Silent = false →
      (resp.parseEdge = none →
        removeDocument k cs (.ok resp) = ⟨DocumentMeta.zero, cs, some (.decodeError "edge")⟩) ∧
      (∀ m, resp.parseEdge = some m → cs.ReturnOld = true → resp.parseOldOk = false →
        removeDocument k cs (.ok resp) = ⟨m, cs, some (.decodeError "old")⟩))
  ∧ (∀ b ex e, (createDocument b cs ex).err = some e →
      CreateDocument b cs ex = (DocumentMeta.zero, some e))
  ∧ (∀ b ex e, (updateDocument k b cs ex).err = some e →
      UpdateDocument k b cs ex = (DocumentMeta.zero, some e))
  ∧ (∀ b ex e, (replaceDocument k b cs ex).err = some e →
      ReplaceDocument k b cs ex = (DocumentMeta.zero, some e))
  ∧ (∀ ex e, (removeDocument k cs ex).err = some e →
      RemoveDocument k cs ex = (DocumentMeta.zero, some e)) := by
  refine ⟨?_, ?_, ?_, ?_, ?_, ?_, ?_, ?_⟩
  · intro hst hsil
    constructor
    · intro hpe
      simp [createDocument, hst, hsil, hpe]
    · intro m hpe hRN hnew
      simp [createDocument, hst, hsil, hpe, hRN, hnew]
  · intro hk hst hsil
    refine ⟨?_, ?_, ?_⟩
    · intro hpe
      simp [updateDocument, hk, hst, hsil, hpe]
    · intro m hpe hRO hold
      simp [updateDocument, hk, hst, hsil, hpe, hRO, hold]
    · intro m hpe hro hRN hnew
      rcases hro with h | h <;>
        simp [updateDocument, hk, hst, hsil, hpe, hRN, hnew, h]
  · intro hk hst hsil
    refine ⟨?_, ?_, ?_⟩
    · intro hpe
      simp [replaceDocument, hk, hst, hsil, hpe]
    · intro m hpe hRO hold
      simp [replaceDocument, hk, hst, hsil, hpe, hRO, hold]
    · intro m hpe hro hRN hnew
      rcases hro with h | h <;>
        simp [replaceDocument, hk, hst, hsil, hpe, hRN, hnew, h]
  · intro hk hst hsil
    constructor
    · intro hpe
      simp [removeDocument, hk, hst, hsil, hpe]
    · intro m hpe hRO hold
      simp [removeDocument, hk, hst, hsil, hpe, hRO, hold]
  · intro b ex e h
    simp [CreateDocument, h]
  · intro b ex e h
    simp [UpdateDocument, h]
  · intro b ex e h
    simp [ReplaceDocument, h]
  · intro ex e h
    simp [RemoveDocument, h]

/-- C6, witness: the amended theorem applied to the concrete `new`-envelope
decode failure: the operator keeps `mA`, the wrapper zeroes it. -/
theorem C6_witness :
    createDocument false csRN (.ok respNewFail) = ⟨mA, csRN, some (.decodeError "new")⟩ ∧
    CreateDocument false csRN (.ok respNewFail) =
      (DocumentMeta.zero, some (.decodeError "new")) :=
  ⟨((C6_decode_partial_meta csRN respNewFail "k").1 (by decide) (by decide)).2 mA
      (by decide) (by decide) (by decide),
   (C6_decode_partial_meta csRN respNewFail "k").2.2.2.2.1 false (.ok respNewFail)
      (.decodeError "new") (by decide)⟩

/-- C7, code bug: `getKeyFromDocument` is not total over batch item values.
A non-nil map without a `_key` entry makes `keyVal.IsNil()` panic on the
zero `reflect.Value` returned by `MapIndex` (instead of returning the
"contains no _key entry" error whose message the source itself carries), a
struct value passed directly (not behind a pointer) makes the leading
`doc.IsNil()` panic, and even a present string-valued map entry panics; the
intended behaviour survives only on the pointer-to-struct path. -/
theorem C7_key_extractor_panics :
    getKeyFromDocument (.mapV [("other", .str "x")]) =
      .panicked "reflect: call of reflect.Value.IsNil on zero Value" ∧
    getKeyFromDocument (.structV [("_key", .str "k")]) =
      .panicked "reflect: call of reflect.Value.IsNil on struct Value" ∧
    getKeyFromDocument (.mapV [("_key", .str "x")]) =
      .panicked "reflect: call of reflect.Value.IsNil on string Value" ∧
    getKeyFromDocument (.ptr (some (.structV [("_key", .str "mykey")]))) = .ok "mykey" ∧
    getKeyFromDocument (.ptr (some (.structV [("other", .str "v")]))) =
      .err (.invalidArgument "Document contains no _key field") := by
  decide

/-- C8, code bug: `IsSparse` on an index descriptor whose `unique` and
`sparse` attributes disagree returns the `unique` attribute — the
implementation reads `i.data.unique` although its own documentation (and
the `Index` interface) promise the `Sparse` attribute. -/
theorem C8_isSparse_reads_unique :
    newIndex dCB (some colGood) = .ok idxCB ∧
    idxCB.data.sparse = some false ∧
    idxCB.data.unique = some true ∧
    index.IsSparse idxCB = true ∧
    index.IsUnique idxCB = true := by
  decide

/-- Any type successfully produced by `indexStringToType` is one of the six
enumerated constants. -/
theorem indexStringToType_mem (s : String) (t : IndexType)
    (h : indexStringToType s = .ok t) :
    t ∈ [PrimaryIndex, FullTextIndex, HashIndex, SkipListIndex, PersistentIndex, GeoIndex] := by
  unfold indexStringToType at h
  split_ifs at h <;> cases h <;> simp

/-- C9, counterexample: `newIndex` checks only that the collection pointer
itself is non-nil; it copies the collection's own `db` and `conn` fields
unchecked, so a successfully built index can carry nil `db` and `conn`
references. -/
theorem C9_counterexample :
    newIndex dCB (some colBad) = .ok idxBad ∧
    idxBad.db = none ∧
    idxBad.conn = none := by
  decide

/-- C9, amended: every index successfully returned by `newIndex` stores the
given descriptor, whose id is non-empty and splits on `/` into exactly two
parts; its type is one of the six `IndexType` constants; its `col` is the
given non-nil collection and its `db`/`conn` are copied from that
collection (hence non-nil exactly when the collection's are);
consequently `Name()` returns the part after the `/` without panicking. -/
theorem C9_newIndex_invariant (data : indexData) (col : Option collection) (idx : index)
    (h : newIndex data col = .ok idx) :
    idx.data = data ∧
    data.id ≠ "" ∧
    (goSplit idx.data.id '/').length = 2 ∧
    idx.indexType ∈
      [PrimaryIndex, FullTextIndex, HashIndex, SkipListIndex, PersistentIndex, GeoIndex] ∧
    (∃ c, col = some c ∧ idx.col = some c ∧ idx.db = c.db ∧ idx.conn = c.conn) ∧
    idx.Name ≠ none := by
  unfold newIndex at h
  split_ifs at h with h1 h2
  cases col with
  | none => cases h
  | some c =>
    cases hty : indexStringToType data.typestr with
    | error e => rw [hty] at h; cases h
    | ok t =>
      rw [hty] at h
      cases h
      have hsplit : (goSplit data.id '/').length = 2 := by omega
      refine ⟨rfl, h1, hsplit, indexStringToType_mem _ _ hty, ⟨c, rfl, rfl, rfl, rfl⟩, ?_⟩
      have h1lt : 1 < (goSplit data.id '/').length := by omega
      simp [index.Name, List.getElem?_eq_getElem h1lt]

/-- C9, witness: the invariant at a concrete well-formed descriptor and
fully-populated collection. -/
theorem C9_witness :
    idxCB.data = dCB ∧
    dCB.id ≠ "" ∧
    (goSplit idxCB.data.id '/').length = 2 ∧
    idxCB.indexType ∈
      [PrimaryIndex, FullTextIndex, HashIndex, SkipListIndex, PersistentIndex, GeoIndex] ∧
    (∃ c, some colGood = some c ∧ idxCB.col = some c ∧ idxCB.db = c.db ∧ idxCB.conn = c.conn) ∧
    idxCB.Name ≠ none :=
  C9_newIndex_invariant dCB (some colGood) idxCB (by decide)

/-- C10: `indexStringToType` maps each of the six enumerated names to its
constant, additionally maps `geo1` and `geo2` to `GeoIndex`, and returns an
`InvalidArgumentError` for every other string. -/
theorem C10_indexStringToType_total :
    (indexStringToType "primary" = .ok PrimaryIndex ∧
     indexStringToType "fulltext" = .ok FullTextIndex ∧
     indexStringToType "hash" = .ok HashIndex ∧
     indexStringToType "skiplist" = .ok SkipListIndex ∧
     indexStringToType "persistent" = .ok PersistentIndex ∧
     indexStringToType "geo" = .ok GeoIndex ∧
     indexStringToType "geo1" = .ok GeoIndex ∧
     indexStringToType "geo2" = .ok GeoIndex) ∧
    ∀ s, s ∉ ["primary", "fulltext", "hash", "skiplist", "persistent", "geo", "geo1", "geo2"] →
      indexStringToType s = .error (.invalidArgument "unknown index type") := by
  refine ⟨by decide, ?_⟩
  intro s h
  simp only [List.mem_cons, List.not_mem_nil, or_false, not_or] at h
  obtain ⟨h1, h2, h3, h4, h5, h6, h7, h8⟩ := h
  simp [indexStringToType, PrimaryIndex, FullTextIndex, HashIndex, SkipListIndex,
    PersistentIndex, GeoIndex, h1, h2, h3, h4, h5, h6, h7, h8]

/-- C10, witness: an unrecognised name yields the invalid-argument error. -/
theorem C10_witness :
    indexStringToType "edgehash" = .error (.invalidArgument "unknown index type") :=
  C10_indexStringToType_total.2 "edgehash" (by decide)

end Driver
